import Mathlib

/-!
Shallow embedding of the ocean.js core under verification:
`src/balancer/OceanPool.ts` (pool trading and liquidity orchestration) and
`src/contracts/Dispenser.ts` (dispenser eligibility predicate).

Modelling conventions:
* JavaScript numbers obtained through `parseFloat` and `BigNumber`/`Decimal`
  arithmetic are modelled as rationals; every comparison and arithmetic
  operation used by the claims is exact at the inputs considered.
* Each asynchronous method of the TypeScript class is embedded as a pure
  function whose extra arguments are the values returned by the external
  ledger reads and mutating calls it awaits (the ledger is an oracle).
* The result of a method is an `OpResult`: the returned value (`none`
  models the JavaScript `null` failure return), the ordered trace of
  mutating collaborator calls the method issued, and the list of
  `logger.error` messages it emitted.
-/

/-- Transaction receipts are opaque confirmation records; an abstract id. -/
abbrev TransactionReceipt := Nat

/-- Mutating collaborator calls issued by the orchestration layer
(`approve`, swaps, joins, exits, pool factory calls), with the arguments
the source passes. Amounts passed through `web3.utils.toWei` are recorded
in wei. -/
inductive MutCall where
  | approve (token spender : String) (amountWei : ℚ)
  | swapExactAmountOut (tokenIn : String) (maxAmountIn : ℚ)
      (tokenOut : String) (tokenAmountOut : ℚ) (maxPrice : Option ℚ)
  | swapExactAmountIn (tokenIn : String) (tokenAmountIn : ℚ)
      (tokenOut : String) (minAmountOut : ℚ) (maxPrice : Option ℚ)
  | joinswapExternAmountIn (tokenIn : String) (tokenAmountIn minPoolAmountOut : ℚ)
  | exitswapExternAmountOut (tokenOut : String) (tokenAmountOut maxPoolAmountIn : ℚ)
  | exitPool (poolAmountIn : ℚ) (minAmountsOut : List ℚ)
  | createPool
  | setup (dt : String) (dtAmountWei dtWeightWei : ℚ) (ocean : String)
      (oceanAmountWei oceanWeightWei feeWei : ℚ)
deriving DecidableEq, Repr

/-- Outcome of one orchestrated method: the value it returns (`none` is the
JavaScript `null`), the mutating collaborator calls it issued in order, and
the `logger.error` messages it emitted. -/
structure OpResult where
  receipt : Option TransactionReceipt
  calls : List MutCall
  logs : List String
deriving DecidableEq, Repr

/-- Conversion `web3.utils.fromWei`: wei to token units. -/
def fromWei (z : ℤ) : ℚ := (z : ℚ) / 10 ^ 18

/-- Conversion `web3.utils.toWei`: token units to wei. -/
def toWei (q : ℚ) : ℚ := q * 10 ^ 18

namespace OceanPool

/-- Source constant `POOL_MAX_AMOUNT_IN_LIMIT = 0.25` (OceanPool.ts line 11). -/
def POOL_MAX_AMOUNT_IN_LIMIT : ℚ := 25 / 100

/-- Source constant `POOL_MAX_AMOUNT_OUT_LIMIT = 0.25` (OceanPool.ts line 12). -/
def POOL_MAX_AMOUNT_OUT_LIMIT : ℚ := 25 / 100

/-- `getMaxBuyQuantity` (OceanPool.ts lines 206-212): reads the reserve of
the queried token and returns `String(parseFloat(balance) / 3)`. -/
def getMaxBuyQuantity (balance : ℚ) : ℚ := balance / 3

/-- Return value of `getMaxAddLiquidity` / `getMaxRemoveLiquidity`: either
the `fromWei` rendering of the computed raw ceiling, or the literal string
zero returned by the `else` branch. -/
inductive MaxLiqResult where
  | computed (raw : ℤ)
  | zeroStr
deriving DecidableEq, Repr

/-- `getMaxAddLiquidity` (OceanPool.ts lines 476-488): if the parsed reserve
is positive, compute `new BigNumber(toWei(balance)).multipliedBy(0.25)
.integerValue(ROUND_DOWN).minus(1)` and return it through `fromWei`;
otherwise return the string zero. `ROUND_DOWN` truncates toward zero, which
on the positive products arising here coincides with the floor. -/
def getMaxAddLiquidity (balance : ℚ) : MaxLiqResult :=
  if 0 < balance then
    .computed (⌊toWei balance * POOL_MAX_AMOUNT_IN_LIMIT⌋ - 1)
  else .zeroStr

/-- `getMaxRemoveLiquidity` (OceanPool.ts lines 495-507): identical shape to
`getMaxAddLiquidity` with `POOL_MAX_AMOUNT_OUT_LIMIT`. -/
def getMaxRemoveLiquidity (balance : ℚ) : MaxLiqResult :=
  if 0 < balance then
    .computed (⌊toWei balance * POOL_MAX_AMOUNT_OUT_LIMIT⌋ - 1)
  else .zeroStr

/-- Numeric value a caller obtains by `parseFloat` of the string returned by
`getMaxAddLiquidity` / `getMaxRemoveLiquidity` (the computed branch is a wei
amount printed through `fromWei`; the other branch is the string zero). -/
def maxLiqValue : MaxLiqResult → ℚ
  | .computed raw => fromWei raw
  | .zeroStr => 0

/-- Ledger reads awaited by `buyDT`: the configured ocean token address, the
datatoken address of the pool, the parsed datatoken reserve, the quote
`calcInGivenOut` for the requested amount (superclass weighted math, treated
as an oracle), and the receipts of the two mutating calls. -/
structure BuyEnv where
  oceanAddress : Option String
  dtAddress : String
  dtReserve : ℚ
  oceanNeeded : ℚ
  approveReceipt : Option TransactionReceipt
  swapReceipt : Option TransactionReceipt
deriving DecidableEq, Repr

/-- `buyDT` (OceanPool.ts lines 537-581): reject when the ocean address is
unset; reject when the wanted datatoken amount exceeds
`getDTMaxBuyQuantity` (the datatoken reserve divided by three); reject when
the quoted ocean amount needed exceeds the callers maximum; then approve the
maximum ocean spend and issue `swapExactAmountOut`. -/
def buyDT (env : BuyEnv) (poolAddress : String) (dtAmountWanted maxOceanAmount : ℚ)
    (maxPrice : Option ℚ) : OpResult :=
  match env.oceanAddress with
  | none => ⟨none, [], ["ERROR: undefined ocean token contract address"]⟩
  | some oceanAddr =>
    if dtAmountWanted > getMaxBuyQuantity env.dtReserve then
      ⟨none, [], ["ERROR: Buy quantity exceeds quantity allowed"]⟩
    else if env.oceanNeeded > maxOceanAmount then
      ⟨none, [], ["ERROR: Not enough Ocean Tokens"]⟩
    else
      match env.approveReceipt with
      | none => ⟨none, [.approve oceanAddr poolAddress (toWei maxOceanAmount)],
          ["ERROR: OCEAN approve failed"]⟩
      | some _ =>
        ⟨env.swapReceipt,
         [.approve oceanAddr poolAddress (toWei maxOceanAmount),
          .swapExactAmountOut oceanAddr maxOceanAmount env.dtAddress dtAmountWanted
            maxPrice],
         []⟩

/-- Ledger reads awaited by `sellDT`: ocean address, datatoken address, the
parsed ocean reserve, the quote `calcOutGivenIn` (oracle), and the receipts
of the two mutating calls. -/
structure SellEnv where
  oceanAddress : Option String
  dtAddress : String
  oceanReserve : ℚ
  oceanReceived : ℚ
  approveReceipt : Option TransactionReceipt
  swapReceipt : Option TransactionReceipt
deriving DecidableEq, Repr

/-- `sellDT` (OceanPool.ts lines 592-636): reject when the ocean address is
unset; reject when the wanted ocean amount exceeds `getOceanMaxBuyQuantity`
(the ocean reserve divided by three); reject when the quoted ocean output is
below the wanted amount; then approve the datatoken spend and issue
`swapExactAmountIn`. -/
def sellDT (env : SellEnv) (poolAddress : String) (dtAmount oceanAmountWanted : ℚ)
    (maxPrice : Option ℚ) : OpResult :=
  match env.oceanAddress with
  | none => ⟨none, [], ["ERROR: oceanAddress is not defined"]⟩
  | some oceanAddr =>
    if oceanAmountWanted > getMaxBuyQuantity env.oceanReserve then
      ⟨none, [], ["ERROR: Buy quantity exceeds quantity allowed"]⟩
    else if env.oceanReceived < oceanAmountWanted then
      ⟨none, [], ["ERROR: Not enough datatokens"]⟩
    else
      match env.approveReceipt with
      | none => ⟨none, [.approve env.dtAddress poolAddress (toWei dtAmount)],
          ["ERROR: DT approve failed"]⟩
      | some _ =>
        ⟨env.swapReceipt,
         [.approve env.dtAddress poolAddress (toWei dtAmount),
          .swapExactAmountIn env.dtAddress dtAmount oceanAddr oceanAmountWanted
            maxPrice],
         []⟩

/-- Ledger reads awaited by `create`: the configured ocean address, the
receipt of the factory `createPool` call, the registered pool address taken
from its event log, and the receipts of the two approvals and the setup. -/
structure CreateEnv where
  oceanAddress : Option String
  createReceipt : Option TransactionReceipt
  createdPoolAddress : String
  approveDTReceipt : Option TransactionReceipt
  approveOceanReceipt : Option TransactionReceipt
  setupReceipt : Option TransactionReceipt
deriving DecidableEq, Repr

/-- `create` (OceanPool.ts lines 83-158): four local validations (ocean
address configured, fee at most a tenth, datatoken amount at least two,
datatoken weight within one to nine), then the guarded sequence
`createPool`, approve datatoken, approve ocean, `setup`, each aborting with
a logged error and a `null` return when its receipt is missing. On success
the method returns the `createPool` receipt. The ocean weight is ten minus
the datatoken weight. -/
def create (env : CreateEnv) (dtAddress : String)
    (dtAmount dtWeight oceanAmount fee : ℚ) : OpResult :=
  match env.oceanAddress with
  | none => ⟨none, [], ["ERROR: oceanAddress is not defined"]⟩
  | some oceanAddr =>
    if fee > 1 / 10 then
      ⟨none, [], ["ERROR: Swap fee too high. The maximum allowed swapFee is 10%"]⟩
    else if dtAmount < 2 then
      ⟨none, [], ["ERROR: Amount of DT is too low"]⟩
    else if dtWeight > 9 ∨ dtWeight < 1 then
      ⟨none, [], ["ERROR: Weight out of bounds (min 1, max9)"]⟩
    else
      match env.createReceipt with
      | none => ⟨none, [.createPool], ["ERROR: Failed to call approve DT token"]⟩
      | some createTxid =>
        match env.approveDTReceipt with
        | none =>
          ⟨none,
           [.createPool, .approve dtAddress env.createdPoolAddress (toWei dtAmount)],
           ["ERROR: Failed to call approve DT token"]⟩
        | some _ =>
          match env.approveOceanReceipt with
          | none =>
            ⟨none,
             [.createPool, .approve dtAddress env.createdPoolAddress (toWei dtAmount),
              .approve oceanAddr env.createdPoolAddress (toWei oceanAmount)],
             ["ERROR: Failed to call approve OCEAN token"]⟩
          | some _ =>
            match env.setupReceipt with
            | none =>
              ⟨none,
               [.createPool,
                .approve dtAddress env.createdPoolAddress (toWei dtAmount),
                .approve oceanAddr env.createdPoolAddress (toWei oceanAmount),
                .setup dtAddress (toWei dtAmount) (toWei dtWeight) oceanAddr
                  (toWei oceanAmount) (toWei (10 - dtWeight)) (toWei fee)],
               ["ERROR: Failed to create a new pool"]⟩
            | some _ =>
              ⟨some createTxid,
               [.createPool,
                .approve dtAddress env.createdPoolAddress (toWei dtAmount),
                .approve oceanAddr env.createdPoolAddress (toWei oceanAmount),
                .setup dtAddress (toWei dtAmount) (toWei dtWeight) oceanAddr
                  (toWei oceanAmount) (toWei (10 - dtWeight)) (toWei fee)],
               []⟩

/-- Ledger reads awaited by `removeDTLiquidity`: the datatoken address, the
parsed datatoken reserve (input of `getDTMaxRemoveLiquidity`), the callers
share balance, the quote `calcPoolInGivenSingleOut` for the requested amount
(oracle), and the receipt of the exit call. -/
structure RemoveDTEnv where
  dtAddress : String
  dtReserve : ℚ
  usershares : ℚ
  sharesRequired : ℚ
  exitReceipt : Option TransactionReceipt
deriving DecidableEq, Repr

/-- `removeDTLiquidity` (OceanPool.ts lines 683-716): reject when the
requested amount exceeds `getDTMaxRemoveLiquidity`; reject when the callers
share balance is below the specified maximum pool shares; reject when the
specified maximum pool shares are below the shares required for the amount.
The subsequent `Balancer bug fix` line multiplies the maximum by 0.9999
under the very condition (`maximumPoolShares < sharesRequired`) that has
just caused a rejection, exactly as in the source; finally issue
`exitswapExternAmountOut`. -/
def removeDTLiquidity (env : RemoveDTEnv) (amount maximumPoolShares : ℚ) : OpResult :=
  if amount > maxLiqValue (getMaxRemoveLiquidity env.dtReserve) then
    ⟨none, [], ["ERROR: Too much reserve to remove"]⟩
  else if env.usershares < maximumPoolShares then
    ⟨none, [], ["ERROR: Not enough poolShares"]⟩
  else if maximumPoolShares < env.sharesRequired then
    ⟨none, [], ["ERROR: Not enough poolShares"]⟩
  else
    ⟨env.exitReceipt,
     [.exitswapExternAmountOut env.dtAddress amount
        (if maximumPoolShares < env.sharesRequired then
          maximumPoolShares * (9999 / 10000)
        else maximumPoolShares)],
     []⟩

/-- Ledger reads awaited by `removeOceanLiquidity`: the configured ocean
address, the parsed ocean reserve, the callers share balance, the quote
`calcPoolInGivenSingleOut` (oracle), and the receipt of the exit call. -/
structure RemoveOceanEnv where
  oceanAddress : Option String
  oceanReserve : ℚ
  usershares : ℚ
  sharesRequired : ℚ
  exitReceipt : Option TransactionReceipt
deriving DecidableEq, Repr

/-- `removeOceanLiquidity` (OceanPool.ts lines 766-805): same shape as
`removeDTLiquidity` with an initial ocean-address configuration check, the
ocean reserve ceiling, and the exit issued on the ocean token. -/
def removeOceanLiquidity (env : RemoveOceanEnv) (amount maximumPoolShares : ℚ) :
    OpResult :=
  match env.oceanAddress with
  | none => ⟨none, [], ["ERROR: oceanAddress is not defined"]⟩
  | some oceanAddr =>
    if amount > maxLiqValue (getMaxRemoveLiquidity env.oceanReserve) then
      ⟨none, [], ["ERROR: Too much reserve to remove"]⟩
    else if env.usershares < maximumPoolShares then
      ⟨none, [], ["ERROR: Not enough poolShares"]⟩
    else if maximumPoolShares < env.sharesRequired then
      ⟨none, [], ["ERROR: Not enough poolShares"]⟩
    else
      ⟨env.exitReceipt,
       [.exitswapExternAmountOut oceanAddr amount
          (if maximumPoolShares < env.sharesRequired then
            maximumPoolShares * (9999 / 10000)
          else maximumPoolShares)],
       []⟩

/-- Ledger reads awaited by `removePoolLiquidity`: the callers share balance
and the receipt of the `exitPool` call. -/
structure RemovePoolEnv where
  usershares : ℚ
  exitReceipt : Option TransactionReceipt
deriving DecidableEq, Repr

/-- `removePoolLiquidity` (OceanPool.ts lines 816-833): reject when the
callers share balance is below the requested pool shares; when the balance
equals the requested shares exactly, multiply the submitted shares by 0.9999
(the `Balancer bug fix`); then issue `exitPool` with the two minimum output
amounts. -/
def removePoolLiquidity (env : RemovePoolEnv) (poolShares minDT minOcean : ℚ) :
    OpResult :=
  if env.usershares < poolShares then
    ⟨none, [], ["ERROR: Not enough poolShares"]⟩
  else
    ⟨env.exitReceipt,
     [.exitPool
        (if env.usershares = poolShares then poolShares * (9999 / 10000)
         else poolShares)
        [minDT, minOcean]],
     []⟩

/-- Pool shares submitted by an `exitPool` collaborator call, if the call is
one. -/
def exitPoolShares : MutCall → Option ℚ
  | .exitPool q _ => some q
  | _ => none

end OceanPool

namespace Dispenser

/-- Raw dispenser record returned by the contract `status` call, before the
`fromWei` conversions applied in `Dispenser.status` (Dispenser.ts lines
19-28); amounts are in wei. -/
structure DispenserTokenRaw where
  active : Bool
  maxTokensWei : ℕ
  maxBalanceWei : ℕ
  balanceWei : ℕ
  isMinter : Bool
deriving DecidableEq, Repr

/-- Dispenser record after `Dispenser.status` converted `maxTokens`,
`maxBalance` and `balance` from wei to token units. -/
structure DispenserToken where
  active : Bool
  maxTokens : ℚ
  maxBalance : ℚ
  balance : ℚ
  isMinter : Bool
deriving DecidableEq, Repr

/-- Field conversions performed by `Dispenser.status` (Dispenser.ts lines
24-26). -/
def statusConvert (s : DispenserTokenRaw) : DispenserToken :=
  ⟨s.active, fromWei s.maxTokensWei, fromWei s.maxBalanceWei, fromWei s.balanceWei,
   s.isMinter⟩

/-- `Dispenser.status` (Dispenser.ts lines 19-28): the raw contract lookup
is an oracle (`none` models a missing record, which in JavaScript is a falsy
value); a missing record makes the method throw, embedded as `Except.error`
with the message of the thrown `Error`; otherwise the converted record is
returned. -/
def status (raw : Option DispenserTokenRaw) : Except String DispenserToken :=
  match raw with
  | none => .error "Np dispenser found for the given datatoken address"
  | some s => .ok (statusConvert s)

/-- JavaScript truthiness of the record returned by `status`: an object is
always truthy, so the guard `if (!status) return false` inside
`isDispensable` tests a condition that is false for every record `status`
can return. -/
def statusIsFalsy (_ : DispenserToken) : Bool := false

/-- `isDispensable` (Dispenser.ts lines 252-272): awaits `status` (whose
thrown error propagates, there being no catch), then checks in order the
falsy-status guard, the active flag, that the recipients balance is strictly
below `maxBalance` (`userBalance.greaterThanOrEqualTo(maxBalance)` rejects),
that the amount is at most `maxTokens` (`amount.greaterThan(maxTokens)`
rejects), and finally admits when the reservoir balance covers the amount
(`contractBalance.greaterThanOrEqualTo(amount)`) or the dispenser is a
minter. The recipients balance read from the datatoken collaborator is an
oracle argument. -/
def isDispensable (raw : Option DispenserTokenRaw) (userBalance amount : ℚ) :
    Except String Bool :=
  match status raw with
  | .error e => .error e
  | .ok st =>
    if statusIsFalsy st then .ok false
    else if st.active = false then .ok false
    else if st.maxBalance ≤ userBalance then .ok false
    else if st.maxTokens < amount then .ok false
    else if st.balance ≥ amount ∨ st.isMinter = true then .ok true
    else .ok false

end Dispenser

/-- Helper: the floor of a quarter of a natural number, taken in the
rationals, is its division by four. -/
theorem floor_quarter_nat (r : ℕ) : ⌊(r : ℚ) * (25 / 100)⌋ = ((r / 4 : ℕ) : ℤ) := by
  rw [show (25 / 100 : ℚ) = 1 / 4 by norm_num, mul_one_div, Int.floor_eq_iff]
  constructor
  · rw [le_div_iff (by norm_num : (0:ℚ) < 4)]
    exact_mod_cast Nat.div_mul_le_self r 4
  · rw [div_lt_iff (by norm_num : (0:ℚ) < 4)]
    exact_mod_cast (by omega : r < (r / 4 + 1) * 4)

/-- C4: for every pool with positive reserve (r raw units), the liquidity
add and remove ceilings both equal floor(r * 0.25) - 1 raw units, which is
strictly less than 0.25 times the reserve. -/
theorem maxLiquidity_ceiling_formula (r : ℕ) (h : 0 < r) :
    OceanPool.getMaxAddLiquidity ((r : ℚ) / 10 ^ 18) =
      OceanPool.MaxLiqResult.computed (((r / 4 : ℕ) : ℤ) - 1) ∧
    OceanPool.getMaxRemoveLiquidity ((r : ℚ) / 10 ^ 18) =
      OceanPool.MaxLiqResult.computed (((r / 4 : ℕ) : ℤ) - 1) ∧
    ((r / 4 : ℕ) : ℚ) - 1 < (r : ℚ) * (25 / 100) := by
  have hpos : (0:ℚ) < (r : ℚ) / 10 ^ 18 :=
    div_pos (by exact_mod_cast h) (by norm_num)
  have hw : toWei ((r : ℚ) / 10 ^ 18) = (r : ℚ) := by
    unfold toWei; field_simp
  have hdivle : ((r / 4 : ℕ) : ℚ) ≤ (r : ℚ) / 4 := by
    rw [le_div_iff (by norm_num : (0:ℚ) < 4)]
    exact_mod_cast Nat.div_mul_le_self r 4
  refine ⟨?_, ?_, ?_⟩
  · unfold OceanPool.getMaxAddLiquidity
    rw [if_pos hpos, hw]
    rw [show OceanPool.POOL_MAX_AMOUNT_IN_LIMIT = 25 / 100 from rfl, floor_quarter_nat]
  · unfold OceanPool.getMaxRemoveLiquidity
    rw [if_pos hpos, hw]
    rw [show OceanPool.POOL_MAX_AMOUNT_OUT_LIMIT = 25 / 100 from rfl, floor_quarter_nat]
  · have : (r : ℚ) * (25 / 100) = (r : ℚ) / 4 := by ring
    rw [this]; linarith

/-- Witness for C4 at raw reserve 8: both ceilings are 1 raw unit, below
one quarter of the reserve. -/
theorem maxLiquidity_ceiling_formula_w :
    OceanPool.getMaxAddLiquidity ((8 : ℚ) / 10 ^ 18) =
      OceanPool.MaxLiqResult.computed 1 ∧
    OceanPool.getMaxRemoveLiquidity ((8 : ℚ) / 10 ^ 18) =
      OceanPool.MaxLiqResult.computed 1 ∧
    ((8 / 4 : ℕ) : ℚ) - 1 < (8 : ℚ) * (25 / 100) := by
  have h := maxLiquidity_ceiling_formula 8 (by norm_num)
  exact ⟨h.1, h.2.1, h.2.2⟩

/-- C9: a non-positive parsed reserve makes both ceiling functions return
the literal string zero without entering the formula branch. -/
theorem maxLiquidity_zero_reserve (b : ℚ) (h : b ≤ 0) :
    OceanPool.getMaxAddLiquidity b = OceanPool.MaxLiqResult.zeroStr ∧
    OceanPool.getMaxRemoveLiquidity b = OceanPool.MaxLiqResult.zeroStr := by
  constructor <;>
    simp [OceanPool.getMaxAddLiquidity, OceanPool.getMaxRemoveLiquidity,
      not_lt.mpr h]

/-- Witness for C9 at reserve zero. -/
theorem maxLiquidity_zero_reserve_w :
    OceanPool.getMaxAddLiquidity 0 = OceanPool.MaxLiqResult.zeroStr ∧
    OceanPool.getMaxRemoveLiquidity 0 = OceanPool.MaxLiqResult.zeroStr :=
  maxLiquidity_zero_reserve 0 (by norm_num)

/-- C2: removePoolLiquidity rejects with no exit when the requested shares
exceed the callers balance; at exact equality it submits the shares reduced
by the factor 0.9999; and any exitPool call it issues spends at most the
callers share balance. -/
theorem removePoolLiquidity_share_safety (env : OceanPool.RemovePoolEnv)
    (poolShares minDT minOcean : ℚ) (hps : 0 ≤ poolShares) :
    (env.usershares < poolShares →
      OceanPool.removePoolLiquidity env poolShares minDT minOcean =
        ⟨none, [], ["ERROR: Not enough poolShares"]⟩) ∧
    (poolShares = env.usershares →
      OceanPool.removePoolLiquidity env poolShares minDT minOcean =
        ⟨env.exitReceipt,
         [.exitPool (poolShares * (9999 / 10000)) [minDT, minOcean]], []⟩) ∧
    (∀ c ∈ (OceanPool.removePoolLiquidity env poolShares minDT minOcean).calls,
      ∀ q, OceanPool.exitPoolShares c = some q → q ≤ env.usershares) := by
  have hred : poolShares * (9999 / 10000) ≤ poolShares := by nlinarith
  refine ⟨fun hlt => ?_, fun heq => ?_, fun c hc q hq => ?_⟩
  · simp [OceanPool.removePoolLiquidity, hlt]
  · have hnlt : ¬ env.usershares < poolShares := by rw [heq]; exact lt_irrefl _
    simp [OceanPool.removePoolLiquidity, hnlt, heq]
  · by_cases hlt : env.usershares < poolShares
    · simp [OceanPool.removePoolLiquidity, hlt] at hc
    · simp [OceanPool.removePoolLiquidity, hlt] at hc
      subst hc
      simp [OceanPool.exitPoolShares] at hq
      by_cases he : env.usershares = poolShares
      · rw [if_pos he] at hq
        rw [← hq, he]
        exact hred
      · rw [if_neg he] at hq
        rw [← hq]
        exact le_of_not_lt hlt

/-- Witness for C2: with a balance of exactly 5 shares, a full exit of 5
shares submits 5 * 0.9999 shares to exitPool. -/
theorem removePoolLiquidity_share_safety_w :
    OceanPool.removePoolLiquidity ⟨5, some 7⟩ 5 0 0 =
      ⟨some 7, [.exitPool (5 * (9999 / 10000)) [0, 0]], []⟩ :=
  (removePoolLiquidity_share_safety ⟨5, some 7⟩ 5 0 0 (by norm_num)).2.1 rfl

/-- C5: isDispensable on a present status returns true exactly when the
dispenser is active, the recipients balance is strictly below maxBalance,
the amount is at most maxTokens, and either the reservoir covers the amount
or the dispenser is a minter; an inactive dispenser yields false for every
amount. -/
theorem isDispensable_spec (s : Dispenser.DispenserTokenRaw) (ub amt : ℚ) :
    (Dispenser.isDispensable (some s) ub amt = Except.ok true ↔
      (s.active = true ∧ ub < fromWei s.maxBalanceWei ∧
       amt ≤ fromWei s.maxTokensWei ∧
       (amt ≤ fromWei s.balanceWei ∨ s.isMinter = true))) ∧
    (s.active = false → Dispenser.isDispensable (some s) ub amt = Except.ok false) := by
  refine ⟨⟨fun h => ?_, fun h => ?_⟩, fun hA => ?_⟩
  · simp only [Dispenser.isDispensable, Dispenser.status, Dispenser.statusConvert,
      Dispenser.statusIsFalsy, Bool.false_eq_true, if_false] at h
    split_ifs at h with h1 h2 h3 h4
    · simp at h
    · simp at h
    · simp at h
    · exact ⟨by revert h1; cases s.active <;> simp, not_le.mp h2, not_lt.mp h3,
        by simpa [ge_iff_le] using h4⟩
    · simp at h
  · obtain ⟨hA, hB, hC, hD⟩ := h
    simp [Dispenser.isDispensable, Dispenser.status, Dispenser.statusConvert,
      Dispenser.statusIsFalsy, hA, not_le.mpr hB, not_lt.mpr hC, ge_iff_le, hD]
  · simp [Dispenser.isDispensable, Dispenser.status, Dispenser.statusConvert,
      Dispenser.statusIsFalsy, hA]

/-- Witness for C5: an inactive dispenser is not dispensable at amount 0. -/
theorem isDispensable_spec_w :
    Dispenser.isDispensable (some ⟨false, 0, 0, 0, false⟩) 0 0 = Except.ok false :=
  (isDispensable_spec ⟨false, 0, 0, 0, false⟩ 0 0).2 rfl

/-- C10: when no dispenser record exists, the status lookup error propagates
out of isDispensable, which therefore never returns a boolean (in
particular, never false). -/
theorem isDispensable_missing_throws (ub amt : ℚ) :
    Dispenser.isDispensable none ub amt =
      Except.error "Np dispenser found for the given datatoken address" ∧
    ∀ b : Bool, Dispenser.isDispensable none ub amt ≠ Except.ok b := by
  refine ⟨rfl, fun b h => ?_⟩
  simp [Dispenser.isDispensable, Dispenser.status] at h

/-- Witness for C10 at balance 0 and amount 0. -/
theorem isDispensable_missing_throws_w :
    Dispenser.isDispensable none 0 0 =
      Except.error "Np dispenser found for the given datatoken address" :=
  (isDispensable_missing_throws 0 0).1

/-- C1 (failing input): at the exact boundary where the pool shares required
to extract the amount equal the caller-specified ceiling (5 = 5, the
adjacent case), removeDTLiquidity and removeOceanLiquidity issue the exit
with the ceiling unchanged: the 0.9999 factor is not applied, because its
guard repeats the comparison that has just failed to reject. -/
theorem removeLiquidity_boundary_no_epsilon :
    OceanPool.removeDTLiquidity ⟨"DT", 8, 5, 5, some 3⟩ 1 5 =
      ⟨some 3, [.exitswapExternAmountOut "DT" 1 5], []⟩ ∧
    OceanPool.removeOceanLiquidity ⟨some "OCEAN", 8, 5, 5, some 4⟩ 1 5 =
      ⟨some 4, [.exitswapExternAmountOut "OCEAN" 1 5], []⟩ ∧
    (5 : ℚ) * (9999 / 10000) ≠ 5 := by
  refine ⟨?_, ?_, by norm_num⟩ <;>
    norm_num [OceanPool.removeDTLiquidity, OceanPool.removeOceanLiquidity,
      OceanPool.maxLiqValue, OceanPool.getMaxRemoveLiquidity,
      OceanPool.POOL_MAX_AMOUNT_OUT_LIMIT, toWei, fromWei]

/-- C3 counterexample: with a datatoken reserve of 12, the maximum buy
quantity is 4 (one third), not 3 (one quarter); a buy of 4 datatokens draws
out more than one quarter of the reserve yet is not rejected: it proceeds
to approve and swap. -/
theorem maxBuyQuantity_not_quarter :
    OceanPool.getMaxBuyQuantity 12 = 4 ∧
    OceanPool.getMaxBuyQuantity 12 ≠ 12 * (25 / 100) ∧
    (4 : ℚ) > 12 * (25 / 100) ∧
    OceanPool.buyDT ⟨some "OCEAN", "DT", 12, 50, some 1, some 9⟩ "pool" 4 100 none =
      ⟨some 9,
       [.approve "OCEAN" "pool" (toWei 100),
        .swapExactAmountOut "OCEAN" 100 "DT" 4 none], []⟩ := by
  refine ⟨by norm_num [OceanPool.getMaxBuyQuantity],
    by norm_num [OceanPool.getMaxBuyQuantity], by norm_num,
    by norm_num [OceanPool.buyDT, OceanPool.getMaxBuyQuantity]⟩

/-- C3 (amended): the swap ceiling enforced by buyDT and sellDT before any
collaborator call is one third of the affected reserve: requests beyond it
are rejected with no calls and the quantity-exceeded log. -/
theorem swapCeiling_one_third (benv : OceanPool.BuyEnv) (senv : OceanPool.SellEnv)
    (pool oa oa2 : String) (dtW maxO dtA oW : ℚ) (mp mp2 : Option ℚ)
    (hb : benv.oceanAddress = some oa)
    (hbq : dtW > benv.dtReserve / 3)
    (hs : senv.oceanAddress = some oa2)
    (hsq : oW > senv.oceanReserve / 3) :
    OceanPool.getMaxBuyQuantity benv.dtReserve = benv.dtReserve / 3 ∧
    OceanPool.buyDT benv pool dtW maxO mp =
      ⟨none, [], ["ERROR: Buy quantity exceeds quantity allowed"]⟩ ∧
    OceanPool.sellDT senv pool dtA oW mp2 =
      ⟨none, [], ["ERROR: Buy quantity exceeds quantity allowed"]⟩ := by
  refine ⟨rfl, ?_, ?_⟩
  · simp [OceanPool.buyDT, hb, OceanPool.getMaxBuyQuantity, hbq]
  · simp [OceanPool.sellDT, hs, OceanPool.getMaxBuyQuantity, hsq]

/-- Witness for the amended C3: a buy of 2 against a reserve of 3 exceeds
one third and is rejected. -/
theorem swapCeiling_one_third_w :
    OceanPool.buyDT ⟨some "O", "DT", 3, 0, none, none⟩ "p" 2 0 none =
      ⟨none, [], ["ERROR: Buy quantity exceeds quantity allowed"]⟩ :=
  (swapCeiling_one_third ⟨some "O", "DT", 3, 0, none, none⟩
    ⟨some "O", "DT", 3, 0, none, none⟩ "p" "O" "O" 2 0 0 2 none none
    rfl (by norm_num) rfl (by norm_num)).2.1

/-- C6: when the quoted ocean amount needed exceeds the caller-supplied
maximum, buyDT rejects with the limit log and issues no collaborator call;
in particular no approve is issued. -/
theorem buyDT_limit_no_approve (env : OceanPool.BuyEnv) (pool oa : String)
    (dtW maxO : ℚ) (mp : Option ℚ)
    (hoa : env.oceanAddress = some oa)
    (hq : ¬ dtW > OceanPool.getMaxBuyQuantity env.dtReserve)
    (hlim : env.oceanNeeded > maxO) :
    OceanPool.buyDT env pool dtW maxO mp =
      ⟨none, [], ["ERROR: Not enough Ocean Tokens"]⟩ := by
  simp [OceanPool.buyDT, hoa, hq, hlim]

/-- Witness for C6: quoted need 200 against maximum 100. -/
theorem buyDT_limit_no_approve_w :
    OceanPool.buyDT ⟨some "O", "DT", 30, 200, none, none⟩ "p" 5 100 none =
      ⟨none, [], ["ERROR: Not enough Ocean Tokens"]⟩ :=
  buyDT_limit_no_approve ⟨some "O", "DT", 30, 200, none, none⟩ "p" "O" 5 100 none
    rfl (by norm_num [OceanPool.getMaxBuyQuantity]) (by norm_num)

/-- C8: when the requested amount exceeds the withdrawal reserve-fraction
ceiling, removeDTLiquidity rejects with the reserve log and issues no
collaborator call. -/
theorem removeDT_ceiling_no_calls (env : OceanPool.RemoveDTEnv) (amount mps : ℚ)
    (h : amount >
      OceanPool.maxLiqValue (OceanPool.getMaxRemoveLiquidity env.dtReserve)) :
    OceanPool.removeDTLiquidity env amount mps =
      ⟨none, [], ["ERROR: Too much reserve to remove"]⟩ := by
  simp [OceanPool.removeDTLiquidity, h]

/-- Witness for C8: a withdrawal of 2 against a reserve of 4 exceeds the
ceiling of just under 1. -/
theorem removeDT_ceiling_no_calls_w :
    OceanPool.removeDTLiquidity ⟨"DT", 4, 0, 0, none⟩ 2 0 =
      ⟨none, [], ["ERROR: Too much reserve to remove"]⟩ :=
  removeDT_ceiling_no_calls ⟨"DT", 4, 0, 0, none⟩ 2 0
    (by norm_num [OceanPool.maxLiqValue, OceanPool.getMaxRemoveLiquidity,
      OceanPool.POOL_MAX_AMOUNT_OUT_LIMIT, toWei, fromWei])

/-- C7 counterexample: two rejections of different kinds (ocean address not
configured, and the input limit exceeded) both return the same sentinel
value null; only the logger messages differ, so the returned failure value
does not distinguish the kinds. -/
theorem rejection_value_generic :
    (OceanPool.buyDT ⟨none, "DT", 10, 0, none, none⟩ "p" 1 1 none).receipt = none ∧
    (OceanPool.buyDT ⟨some "O", "DT", 30, 200, none, none⟩ "p" 5 100 none).receipt =
      none ∧
    (OceanPool.buyDT ⟨none, "DT", 10, 0, none, none⟩ "p" 1 1 none).logs ≠
      (OceanPool.buyDT ⟨some "O", "DT", 30, 200, none, none⟩ "p" 5 100 none).logs := by
  refine ⟨rfl, ?_, ?_⟩
  · norm_num [OceanPool.buyDT, OceanPool.getMaxBuyQuantity]
  · norm_num [OceanPool.buyDT, OceanPool.getMaxBuyQuantity]
    simp

/-- C7 (amended): every locally rejected operation among buyDT, create and
removeDTLiquidity returns the sentinel null together with exactly one
kind-specific logger message; the failure kind is carried by the log, not
by the returned value. -/
theorem rejections_return_null_with_log (benv : OceanPool.BuyEnv) (pool : String)
    (a b : ℚ) (mp : Option ℚ) (cenv : OceanPool.CreateEnv) (dtAddr : String)
    (dA dW oA f : ℚ) (renv : OceanPool.RemoveDTEnv) (ra rmps : ℚ) :
    ((OceanPool.buyDT benv pool a b mp).calls = [] →
      (OceanPool.buyDT benv pool a b mp).receipt = none ∧
      (OceanPool.buyDT benv pool a b mp).logs.length = 1) ∧
    ((OceanPool.create cenv dtAddr dA dW oA f).calls = [] →
      (OceanPool.create cenv dtAddr dA dW oA f).receipt = none ∧
      (OceanPool.create cenv dtAddr dA dW oA f).logs.length = 1) ∧
    ((OceanPool.removeDTLiquidity renv ra rmps).calls = [] →
      (OceanPool.removeDTLiquidity renv ra rmps).receipt = none ∧
      (OceanPool.removeDTLiquidity renv ra rmps).logs.length = 1) := by
  refine ⟨?_, ?_, ?_⟩
  · rcases hoa : benv.oceanAddress with _ | oa
    · simp [OceanPool.buyDT, hoa]
    · rcases har : benv.approveReceipt with _ | rc <;>
        simp only [OceanPool.buyDT, hoa, har] <;> split_ifs <;> simp
  · rcases hoa : cenv.oceanAddress with _ | oa
    · simp [OceanPool.create, hoa]
    · rcases hc : cenv.createReceipt with _ | cr <;>
      rcases ha1 : cenv.approveDTReceipt with _ | a1 <;>
      rcases ha2 : cenv.approveOceanReceipt with _ | a2 <;>
      rcases hst : cenv.setupReceipt with _ | s1 <;>
        simp only [OceanPool.create, hoa, hc, ha1, ha2, hst] <;> split_ifs <;> simp
  · simp only [OceanPool.removeDTLiquidity]
    split_ifs <;> simp

/-- Witness for the amended C7: the unconfigured-ocean rejection of buyDT
returns null with exactly one log. -/
theorem rejections_return_null_with_log_w :
    (OceanPool.buyDT ⟨none, "DT", 10, 0, none, none⟩ "p" 1 1 none).receipt = none ∧
    (OceanPool.buyDT ⟨none, "DT", 10, 0, none, none⟩ "p" 1 1 none).logs.length = 1 :=
  (rejections_return_null_with_log ⟨none, "DT", 10, 0, none, none⟩ "p" 1 1 none
    ⟨none, none, "pp", none, none, none⟩ "DT" 2 5 1 0
    ⟨"DT", 4, 0, 0, none⟩ 0 0).1 rfl
